import Mathlib

/-!
Shallow embedding of `scrapy_selenium/middlewares.py` (class `SeleniumMiddleware`)
and verification of the claims about it.

The middleware's own logic is pure branching over the request descriptor plus
calls into the external selenium driver.  Driver calls are embedded as emitted
`DriverOp` events; the external world (whether `driver.get` or a
`WebDriverWait(...).until(...)` raises, which PNG bytes a screenshot yields) is
an oracle `Env`.  The code catches `TimeoutException` only around `driver.get`
(middlewares.py lines 144-147), so navigation and waiting are the two fallible
calls of the model; every other driver call is modelled as succeeding.
-/

namespace ScrapySelenium

/-- A Python value as far as the timeout plumbing distinguishes it:
`None`, a number (`int`/`float`, collapsed to `Int` since the code never
computes with it), or any other object (`not isinstance(timeout, (int, float))`). -/
inductive PyVal
  | pyNone
  | num (n : Int)
  | other
deriving DecidableEq, Repr

/-- An exception raised by a driver call: selenium's `TimeoutException`,
or any other exception (tagged by an arbitrary code). -/
inductive PyExc
  | timeoutException
  | otherError (code : Nat)
deriving DecidableEq, Repr

/-- A value passed to `driver.add_cookie`: either a bare string (what iterating
a Python dict yields, middlewares.py line 130-133) or a
`{'name': ..., 'value': ...}` dict (line 135-141). -/
inductive Cookie
  | str (s : String)
  | nameValue (name value : String)
deriving DecidableEq, Repr

/-- The shape of `request.cookies` as the branch at middlewares.py line 129
distinguishes it: a Python `dict` (name -> value), a list of cookie values, or
an object that has `.items()` but no `__iter__` attribute. -/
inductive Cookies
  | pyDict (entries : List (String × String))
  | pyList (items : List Cookie)
  | itemsOnly (entries : List (String × String))
deriving DecidableEq, Repr

/-- `hasattr(request.cookies, "__iter__")` (middlewares.py line 129).
Python dicts and lists both define `__iter__`; only the `itemsOnly` shape
lacks it. -/
def hasIterAttr : Cookies → Bool
  | .pyDict _ => true
  | .pyList _ => true
  | .itemsOnly _ => false

/-- `for cookie in request.cookies` (line 130): iterating a Python dict yields
its keys, so each key alone becomes the `add_cookie` argument; iterating a list
yields its elements. -/
def iterCookies : Cookies → List Cookie
  | .pyDict entries => entries.map (fun p => Cookie.str p.1)
  | .pyList items => items
  | .itemsOnly _ => []

/-- `request.cookies.items()` (line 135), for the non-iterable shape. -/
def itemsCookies : Cookies → List (String × String)
  | .pyDict entries => entries
  | .pyList _ => []
  | .itemsOnly entries => entries

/-- A value stored in `request.meta`: screenshot PNG bytes or anything else. -/
inductive MetaVal
  | bytes (png : List Nat)
  | otherVal (tag : Nat)
deriving DecidableEq, Repr

/-- Modelled from the spec: `SeleniumRequest` (defined in
`scrapy_selenium/http.py`, which is not part of this tree) is the "incoming
request descriptor" carrying the url, cookies, meta mapping and the
selenium-specific fields (`wait_time`, `wait_until`, `screenshot`,
`script_dict_list`, `timeout`) that `process_request` reads. -/
structure SeleniumRequest where
  url : String
  cookies : Cookies
  meta : List (String × MetaVal)
  timeout : PyVal
  wait_time : Int
  wait_until : Option Nat
  screenshot : Bool
  script_dict_list : Option (List Nat)
deriving DecidableEq, Repr

/-- A request that is not a `SeleniumRequest` (the `isinstance` check at
middlewares.py line 114 fails on it). -/
structure PlainRequest where
  url : String
deriving DecidableEq, Repr

/-- A request reaching `process_request`. -/
inductive Request
  | plain (r : PlainRequest)
  | selenium (r : SeleniumRequest)
deriving DecidableEq, Repr

/-- One call on the selenium driver, in the order the middleware issues them. -/
inductive DriverOp
  | setPageLoadTimeout (t : Int)
  | addCookie (c : Cookie)
  | navigate (url : String)
  | wait (waitTime : Int) (cond : Nat)
  | takeScreenshot
  | executeScripts (ids : List Nat)
deriving DecidableEq, Repr

/-- The driver-side state the emitted operations act on. -/
structure DriverState where
  pageLoadTimeout : Option Int
  storedCookies : List Cookie
  currentUrl : Option String
  executedScripts : List Nat
deriving DecidableEq, Repr

/-- Effect of one driver operation on the driver state. -/
def applyOp (d : DriverState) : DriverOp → DriverState
  | .setPageLoadTimeout t => { d with pageLoadTimeout := some t }
  | .addCookie c => { d with storedCookies := d.storedCookies ++ [c] }
  | .navigate url => { d with currentUrl := some url }
  | .wait _ _ => d
  | .takeScreenshot => d
  | .executeScripts ids => { d with executedScripts := d.executedScripts ++ ids }

def applyOps (d : DriverState) : List DriverOp → DriverState
  | [] => d
  | op :: ops => applyOps (applyOp d op) ops

/-- The external world: whether `driver.get(url)` raises, whether
`WebDriverWait(driver, t).until(cond)` raises, and the PNG bytes
`driver.get_screenshot_as_png()` returns. -/
structure Env where
  navRaises : String → Option PyExc
  waitRaises : Nat → Option PyExc
  screenshotPng : List Nat

/-- Modelled from the spec: `SeleniumUtilities.generate_scrapy_response`
(in `scrapy_selenium/selenium_utilities.py`, not part of this tree)
"translates the resulting browser state back into a response object the rest
of the pipeline understands": a response built from the driver's state after
all driver operations, for the request's url. -/
structure ScrapyResponse where
  browserState : DriverState
  forUrl : String
deriving DecidableEq, Repr

def generate_scrapy_response (driver : DriverState) (request : SeleniumRequest) :
    ScrapyResponse :=
  { browserState := driver, forUrl := request.url }

/-- Modelled from the spec: `SeleniumUtilities.handle_selenium_scripts`
(in `scrapy_selenium/selenium_utilities.py`, not part of this tree) executes
the request's scripts on the driver — "script execution" delegated to the
driver, emitted here as one driver operation carrying the script list. -/
def handle_selenium_scripts (ids : List Nat) : List DriverOp :=
  [DriverOp.executeScripts ids]

/-- The middleware object: `self.timeout` (set at middlewares.py line 43) and
`self.driver` (set at line 72 or 76, absent when neither branch fires). -/
structure DriverOptions where
  binary_location : Option String
  arguments : List String
deriving DecidableEq, Repr

/-- The driver `__init__` constructs: a local `WebDriver` over a `Service`
(middlewares.py lines 61-72) or a `webdriver.Remote` (lines 74-77). -/
inductive DriverKind
  | localDriver (executable_path : String) (options : DriverOptions)
  | remoteDriver (command_executor : String) (options : DriverOptions)
deriving DecidableEq, Repr

structure Middleware where
  timeout : PyVal
  driver : Option DriverKind
deriving DecidableEq, Repr

/-- The timeout the code settles on (middlewares.py lines 119-124):
`request.timeout`, falling back to `self.timeout` when that is `None`,
falling back to `30` when the result is not an `int` or `float`. -/
def effectiveTimeout (selfTimeout reqTimeout : PyVal) : Int :=
  let t := match reqTimeout with
    | PyVal.pyNone => selfTimeout
    | v => v
  match t with
  | PyVal.num n => n
  | _ => 30

/-- The cookie-injection calls (middlewares.py lines 129-141): the iterable
branch passes each iterated element to `add_cookie`, the `.items()` branch
wraps each pair into a name/value dict. -/
def cookieOps (c : Cookies) : List DriverOp :=
  if hasIterAttr c then
    (iterCookies c).map DriverOp.addCookie
  else
    (itemsCookies c).map (fun p => DriverOp.addCookie (Cookie.nameValue p.1 p.2))

/-- `if(request.script_dict_list and len(request.script_dict_list))`
(middlewares.py line 158): falsy when `None` or empty. -/
def scriptOps (l : Option (List Nat)) : List DriverOp :=
  match l with
  | Option.none => []
  | some ids => if ids.length ≠ 0 then handle_selenium_scripts ids else []

/-- `request.meta['screenshot'] = ...` : Python dict assignment, replacing an
existing binding in place or appending a new one. -/
def setMeta (m : List (String × MetaVal)) (k : String) (v : MetaVal) :
    List (String × MetaVal) :=
  if m.any (fun p => p.1 = k) then
    m.map (fun p => if p.1 = k then (k, v) else p)
  else
    m ++ [(k, v)]

/-- What a `process_request` call comes to: Python `None` (non-selenium
request, line 115), `raise IgnoreRequest(TimeoutError(...))` (line 147), an
exception the code does not catch, or the generated scrapy response
(line 161). -/
inductive ProcResult
  | pyNone
  | ignoreRequestTimeout
  | uncaught (e : PyExc)
  | response (r : ScrapyResponse)
deriving DecidableEq, Repr

/-- A `process_request` call, observed whole: its result, the driver
operations it issued in order, the request as it leaves the call (its meta may
have been written), and the final driver state. -/
structure ProcOutcome where
  result : ProcResult
  trace : List DriverOp
  request : Request
  driver : DriverState
deriving Repr

/-- The tail of `process_request` after `driver.get` and the optional wait
succeeded (middlewares.py lines 155-161): screenshot into `request.meta`,
script execution, response generation. -/
def afterWait (env : Env) (d : DriverState) (req : SeleniumRequest)
    (pre : List DriverOp) : ProcOutcome :=
  let req' := if req.screenshot then
      { req with meta := setMeta req.meta "screenshot" (MetaVal.bytes env.screenshotPng) }
    else req
  let ops := pre ++ (if req.screenshot then [DriverOp.takeScreenshot] else [])
      ++ scriptOps req.script_dict_list
  let d' := applyOps d ops
  { result := ProcResult.response (generate_scrapy_response d' req')
    trace := ops
    request := Request.selenium req'
    driver := d' }

/-- `SeleniumMiddleware.process_request` (middlewares.py lines 111-161),
step by step: the `isinstance` early return, the timeout resolution and
`set_page_load_timeout`, the cookie loop, `driver.get` under the
`TimeoutException` handler, the optional `WebDriverWait(...).until(...)`,
the optional screenshot write into `request.meta`, the optional script
execution, and the generated response. -/
def process_request (mw : Middleware) (env : Env) (d : DriverState) :
    Request → ProcOutcome
  | Request.plain r =>
    { result := ProcResult.pyNone, trace := [], request := Request.plain r, driver := d }
  | Request.selenium req =>
    let t := effectiveTimeout mw.timeout req.timeout
    let pre := DriverOp.setPageLoadTimeout t :: cookieOps req.cookies
        ++ [DriverOp.navigate req.url]
    match env.navRaises req.url with
    | some PyExc.timeoutException =>
      { result := ProcResult.ignoreRequestTimeout, trace := pre
        request := Request.selenium req, driver := applyOps d pre }
    | some e =>
      { result := ProcResult.uncaught e, trace := pre
        request := Request.selenium req, driver := applyOps d pre }
    | Option.none =>
      match req.wait_until with
      | some cond =>
        let pre2 := pre ++ [DriverOp.wait req.wait_time cond]
        match env.waitRaises cond with
        | some e =>
          { result := ProcResult.uncaught e, trace := pre2
            request := Request.selenium req, driver := applyOps d pre2 }
        | Option.none => afterWait env d req pre2
      | Option.none => afterWait env d req pre

/-- `SeleniumMiddleware.spider_closed` quits the driver (middlewares.py
lines 163-165). -/
inductive LifeEvent
  | createDriver (k : DriverKind)
  | driverOp (op : DriverOp)
  | quitDriver
deriving DecidableEq, Repr

/-- `options = Options(); if(browser_executable_path): ...; for argument in
driver_arguments: options.add_argument(argument)` (middlewares.py lines
53-58).  `if(browser_executable_path)` is Python truthiness: set only for a
non-`None`, non-empty path. -/
def buildOptions (browser_executable_path : Option String)
    (args : List String) : DriverOptions :=
  { binary_location := match browser_executable_path with
      | some s => if s ≠ "" then some s else Option.none
      | Option.none => Option.none
    arguments := args }

/-- The arguments `__init__` receives (middlewares.py lines 22-24).
`driver_arguments` is an `Option` because `from_crawler` forwards
`settings.get('SELENIUM_DRIVER_ARGUMENTS')`, which is `None` when unset. -/
structure InitArgs where
  driver_name : String
  driver_executable_path : Option String
  browser_executable_path : Option String
  command_executor : Option String
  driver_arguments : Option (List String)
  timeout : PyVal
deriving DecidableEq, Repr

/-- Outcome of `__init__`: the middleware plus its lifecycle events, or the
`TypeError` Python raises at `for argument in driver_arguments` (line 57)
when `driver_arguments` is `None`. -/
inductive InitResult
  | ok (mw : Middleware) (events : List LifeEvent)
  | typeError
deriving Repr

/-- `SeleniumMiddleware.__init__` (middlewares.py lines 22-77): store the
timeout, build the driver options (iterating the argument list — a `None`
there raises `TypeError` before any driver exists), then construct the local
driver when `driver_executable_path is not None`, else the remote driver when
`command_executor is not None`, else leave `self.driver` unset. -/
def seleniumMiddlewareInit (a : InitArgs) : InitResult :=
  match a.driver_arguments with
  | Option.none => InitResult.typeError
  | some args =>
    let opts := buildOptions a.browser_executable_path args
    match a.driver_executable_path with
    | some p =>
      InitResult.ok { timeout := a.timeout, driver := some (DriverKind.localDriver p opts) }
        [LifeEvent.createDriver (DriverKind.localDriver p opts)]
    | Option.none =>
      match a.command_executor with
      | some c =>
        InitResult.ok { timeout := a.timeout, driver := some (DriverKind.remoteDriver c opts) }
          [LifeEvent.createDriver (DriverKind.remoteDriver c opts)]
      | Option.none =>
        InitResult.ok { timeout := a.timeout, driver := Option.none } []

/-- The lifecycle events `__init__` alone produces. -/
def initEvents (a : InitArgs) : List LifeEvent :=
  match seleniumMiddlewareInit a with
  | InitResult.ok _ ev => ev
  | InitResult.typeError => []

/-- `spider_closed` (middlewares.py lines 163-165): `self.driver.quit()`. -/
def spider_closed (_mw : Middleware) : List LifeEvent :=
  [LifeEvent.quitDriver]

/-- The crawler settings `from_crawler` reads (middlewares.py lines 83-89).
`settings.get` yields `None` for an unset key; `settings.getfloat` of
`DOWNLOAD_TIMEOUT` yields `0.0` when unset. -/
structure CrawlerSettings where
  SELENIUM_DRIVER_NAME : Option String
  SELENIUM_DRIVER_EXECUTABLE_PATH : Option String
  SELENIUM_BROWSER_EXECUTABLE_PATH : Option String
  SELENIUM_COMMAND_EXECUTOR : Option String
  SELENIUM_DRIVER_ARGUMENTS : Option (List String)
  DOWNLOAD_TIMEOUT : Option Int
deriving DecidableEq, Repr

/-- Outcome of `SeleniumMiddleware.from_crawler`: a raised `NotConfigured`,
the `TypeError` escaping from `__init__`, or the middleware with
`connectedSpiderClosed` recording the
`crawler.signals.connect(middleware.spider_closed, signals.spider_closed)`
call (line 107). -/
inductive FromCrawlerResult
  | notConfigured (msg : String)
  | typeError
  | ok (mw : Middleware) (events : List LifeEvent) (connectedSpiderClosed : Bool)
deriving Repr

/-- `SeleniumMiddleware.from_crawler` (middlewares.py lines 79-109). -/
def from_crawler (s : CrawlerSettings) : FromCrawlerResult :=
  match s.SELENIUM_DRIVER_NAME with
  | Option.none => FromCrawlerResult.notConfigured "SELENIUM_DRIVER_NAME must be set"
  | some name =>
    if s.SELENIUM_DRIVER_EXECUTABLE_PATH.isNone && s.SELENIUM_COMMAND_EXECUTOR.isNone then
      FromCrawlerResult.notConfigured
        "Either SELENIUM_DRIVER_EXECUTABLE_PATH or SELENIUM_COMMAND_EXECUTOR must be set"
    else
      match seleniumMiddlewareInit
        { driver_name := name
          driver_executable_path := s.SELENIUM_DRIVER_EXECUTABLE_PATH
          browser_executable_path := s.SELENIUM_BROWSER_EXECUTABLE_PATH
          command_executor := s.SELENIUM_COMMAND_EXECUTOR
          driver_arguments := s.SELENIUM_DRIVER_ARGUMENTS
          timeout := PyVal.num ((s.DOWNLOAD_TIMEOUT).getD 0) } with
      | InitResult.typeError => FromCrawlerResult.typeError
      | InitResult.ok mw ev => FromCrawlerResult.ok mw ev true

/-- Processing a sequence of requests with one middleware, threading the
driver state, collecting every driver operation issued. -/
def processAll (mw : Middleware) (env : Env) (d : DriverState) :
    List Request → List DriverOp × DriverState
  | [] => ([], d)
  | r :: rs =>
    let o := process_request mw env d r
    let rest := processAll mw env o.driver rs
    (o.trace ++ rest.1, rest.2)

/-- A whole crawl as the middleware sees it: `__init__`, every
`process_request`, then `spider_closed`.  `none` when `__init__` raised. -/
def crawlRun (a : InitArgs) (env : Env) (d0 : DriverState)
    (reqs : List Request) : Option (List LifeEvent) :=
  match seleniumMiddlewareInit a with
  | InitResult.typeError => Option.none
  | InitResult.ok mw ev =>
    some (ev ++ ((processAll mw env d0 reqs).1.map LifeEvent.driverOp)
      ++ spider_closed mw)

/-! ### Helpers for counting and classifying operations and events -/

def isNavigate : DriverOp → Bool
  | .navigate _ => true
  | _ => false

/-- How many `driver.get` calls a trace contains. -/
def navCount (ops : List DriverOp) : Nat := ops.countP isNavigate

def isWaitOp : DriverOp → Bool
  | .wait _ _ => true
  | _ => false

/-- How many `WebDriverWait(...).until(...)` calls a trace contains. -/
def waitCount (ops : List DriverOp) : Nat := ops.countP isWaitOp

/-- The five operation kinds claim C1 enumerates (the page-load-timeout
configuration call is outside its list). -/
def isEnumeratedOp : DriverOp → Bool
  | .setPageLoadTimeout _ => false
  | _ => true

def enumeratedOps (ops : List DriverOp) : List DriverOp :=
  ops.filter isEnumeratedOp

/-- The operation order claim C1 asserts: navigation, then cookie injection,
then wait conditions, then script execution, then screenshot capture. -/
def claimedRank : DriverOp → Nat
  | .setPageLoadTimeout _ => 0
  | .navigate _ => 1
  | .addCookie _ => 2
  | .wait _ _ => 3
  | .executeScripts _ => 4
  | .takeScreenshot => 5

/-- Whether consecutive operations are non-decreasing under a rank. -/
def isOrderedBy (r : DriverOp → Nat) : List DriverOp → Bool
  | [] => true
  | [_] => true
  | a :: b :: rest => decide (r a ≤ r b) && isOrderedBy r (b :: rest)

def isCreateEvent : LifeEvent → Bool
  | .createDriver _ => true
  | _ => false

def isQuitEvent : LifeEvent → Bool
  | .quitDriver => true
  | _ => false

/-- How many driver constructions a lifecycle holds. -/
def createCount (ev : List LifeEvent) : Nat := ev.countP isCreateEvent

/-- How many `driver.quit()` calls a lifecycle holds. -/
def quitCount (ev : List LifeEvent) : Nat := ev.countP isQuitEvent

/-! ### Concrete fixtures used by counterexamples and witnesses -/

/-- An environment where no driver call raises. -/
def env0 : Env :=
  { navRaises := fun _ => Option.none
    waitRaises := fun _ => Option.none
    screenshotPng := [137, 80, 78, 71] }

/-- An environment where every navigation raises `TimeoutException`. -/
def envTimeout : Env :=
  { navRaises := fun _ => some PyExc.timeoutException
    waitRaises := fun _ => Option.none
    screenshotPng := [] }

/-- An environment where every navigation raises a non-timeout exception. -/
def envOther : Env :=
  { navRaises := fun _ => some (PyExc.otherError 3)
    waitRaises := fun _ => Option.none
    screenshotPng := [] }

/-- A fresh driver state. -/
def dFresh : DriverState :=
  { pageLoadTimeout := Option.none, storedCookies := [], currentUrl := Option.none
    executedScripts := [] }

/-- A middleware as `from_crawler` would build it for a local firefox driver. -/
def mw0 : Middleware :=
  { timeout := PyVal.num 30
    driver := some (DriverKind.localDriver "/usr/local/bin/geckodriver"
      { binary_location := Option.none, arguments := [] }) }

/-- A `SeleniumRequest` exercising every optional feature: one cookie, a wait
condition, a screenshot, and a script list. -/
def reqFull : SeleniumRequest :=
  { url := "https://example.com"
    cookies := Cookies.pyList [Cookie.str "a"]
    meta := []
    timeout := PyVal.pyNone
    wait_time := 5
    wait_until := some 7
    screenshot := true
    script_dict_list := some [1, 2] }

/-- `__init__` arguments with a local driver executable configured. -/
def a0 : InitArgs :=
  { driver_name := "firefox"
    driver_executable_path := some "/usr/local/bin/geckodriver"
    browser_executable_path := Option.none
    command_executor := Option.none
    driver_arguments := some []
    timeout := PyVal.num 30 }

/-! ### Structural lemmas about the emitted operations -/

theorem mem_cookieOps (c : Cookies) (op : DriverOp) (h : op ∈ cookieOps c) :
    ∃ ck, op = DriverOp.addCookie ck := by
  cases c with
  | pyDict entries =>
    simp [cookieOps, hasIterAttr, iterCookies] at h
    obtain ⟨x, -, rfl⟩ := h
    exact ⟨_, rfl⟩
  | pyList items =>
    simp [cookieOps, hasIterAttr, iterCookies] at h
    obtain ⟨x, -, rfl⟩ := h
    exact ⟨_, rfl⟩
  | itemsOnly entries =>
    simp [cookieOps, hasIterAttr, itemsCookies] at h
    obtain ⟨x, y, -, rfl⟩ := h
    exact ⟨_, rfl⟩

theorem navCount_cookieOps (c : Cookies) : navCount (cookieOps c) = 0 := by
  refine List.countP_eq_zero.2 fun op hop => ?_
  obtain ⟨ck, rfl⟩ := mem_cookieOps c op hop
  simp [isNavigate]

theorem navCount_scriptOps (l : Option (List Nat)) : navCount (scriptOps l) = 0 := by
  cases l with
  | none => rfl
  | some ids =>
    by_cases h : ids.length ≠ 0 <;>
      simp [scriptOps, handle_selenium_scripts, h, navCount, isNavigate, List.countP_cons]

theorem waitCount_cookieOps (c : Cookies) : waitCount (cookieOps c) = 0 := by
  refine List.countP_eq_zero.2 fun op hop => ?_
  obtain ⟨ck, rfl⟩ := mem_cookieOps c op hop
  simp [isWaitOp]

theorem waitCount_scriptOps (l : Option (List Nat)) : waitCount (scriptOps l) = 0 := by
  cases l with
  | none => rfl
  | some ids =>
    by_cases h : ids.length ≠ 0 <;>
      simp [scriptOps, handle_selenium_scripts, h, waitCount, isWaitOp, List.countP_cons]

theorem enumeratedOps_cookieOps (c : Cookies) :
    List.filter isEnumeratedOp (cookieOps c) = cookieOps c := by
  refine List.filter_eq_self.2 fun op hop => ?_
  obtain ⟨ck, rfl⟩ := mem_cookieOps c op hop
  rfl

theorem enumeratedOps_scriptOps (l : Option (List Nat)) :
    List.filter isEnumeratedOp (scriptOps l) = scriptOps l := by
  cases l with
  | none => rfl
  | some ids =>
    by_cases h : ids.length ≠ 0 <;>
      simp [scriptOps, handle_selenium_scripts, h, isEnumeratedOp]

/-! ### Claim C1: order of the driver operations -/

/-- C1 counterexample: on a request carrying a cookie, a wait condition, a
screenshot flag and scripts, the operations `process_request` issues — cookie
injection, navigation, wait, screenshot, script execution — do not follow the
claimed order (navigation, cookie injection, wait, script execution,
screenshot): the cookie is injected before navigation, and the screenshot is
taken before script execution. -/
theorem claim1_counterexample :
    isOrderedBy claimedRank
      (enumeratedOps (process_request mw0 env0 dFresh (Request.selenium reqFull)).trace)
      = false := by
  rfl

/-- C1 (amended): for every SeleniumRequest whose navigation and wait do not
raise, the driver operations of the enumerated kinds are issued in the order:
cookie injection, navigation, wait conditions, screenshot capture, script
execution. -/
theorem claim1_operation_order (mw : Middleware) (env : Env) (dr : DriverState)
    (req : SeleniumRequest) (hnav : env.navRaises req.url = Option.none)
    (hwait : ∀ c, req.wait_until = some c → env.waitRaises c = Option.none) :
    enumeratedOps (process_request mw env dr (Request.selenium req)).trace =
      cookieOps req.cookies ++ [DriverOp.navigate req.url]
      ++ (match req.wait_until with
          | some c => [DriverOp.wait req.wait_time c]
          | Option.none => [])
      ++ (if req.screenshot then [DriverOp.takeScreenshot] else [])
      ++ scriptOps req.script_dict_list := by
  cases hw : req.wait_until with
  | none =>
    simp only [process_request, hnav, hw, afterWait]
    cases hs : req.screenshot <;>
      simp [enumeratedOps, List.filter_append, enumeratedOps_cookieOps,
        enumeratedOps_scriptOps, isEnumeratedOp, hs]
  | some c =>
    have hwc := hwait c hw
    simp only [process_request, hnav, hw, hwc, afterWait]
    cases hs : req.screenshot <;>
      simp [enumeratedOps, List.filter_append, enumeratedOps_cookieOps,
        enumeratedOps_scriptOps, isEnumeratedOp, hs]

/-- C1 witness: the amended order theorem applied to `reqFull` in an
environment where nothing raises. -/
theorem claim1_operation_order_witness :
    enumeratedOps (process_request mw0 env0 dFresh (Request.selenium reqFull)).trace =
      [DriverOp.addCookie (Cookie.str "a"), DriverOp.navigate "https://example.com",
       DriverOp.wait 5 7, DriverOp.takeScreenshot, DriverOp.executeScripts [1, 2]] :=
  claim1_operation_order mw0 env0 dFresh reqFull rfl (fun _ _ => rfl)

/-! ### Claim C9: non-selenium requests pass through untouched -/

/-- C9: for every request that is not a SeleniumRequest, `process_request`
returns Python `None`, issues no driver operation, and leaves the request and
the driver state unchanged. -/
theorem claim9_non_selenium_passthrough (mw : Middleware) (env : Env)
    (dr : DriverState) (r : PlainRequest) :
    process_request mw env dr (Request.plain r) =
      { result := ProcResult.pyNone, trace := [], request := Request.plain r
        driver := dr } :=
  rfl

/-! ### Claim C8: dict-shaped cookies always take the iterable branch -/

/-- C8: a Python dict defines `__iter__`, so `request.cookies` of dict shape
always takes the iterable branch: each dict key alone is passed to
`driver.add_cookie`, and the `.items()` branch that would wrap each pair into
a name/value cookie contributes nothing — no name/value cookie ever appears. -/
theorem claim8_dict_cookies_iterable_branch (entries : List (String × String)) :
    hasIterAttr (Cookies.pyDict entries) = true ∧
    cookieOps (Cookies.pyDict entries) =
      entries.map (fun p => DriverOp.addCookie (Cookie.str p.1)) ∧
    ∀ n v, DriverOp.addCookie (Cookie.nameValue n v) ∉ cookieOps (Cookies.pyDict entries) := by
  refine ⟨rfl, ?_, ?_⟩
  · simp [cookieOps, hasIterAttr, iterCookies, List.map_map]
  · intro n v hmem
    simp [cookieOps, hasIterAttr, iterCookies] at hmem

/-- C8 witness: the dict-cookie theorem applied to a two-entry dict. -/
theorem claim8_dict_cookies_iterable_branch_witness :
    cookieOps (Cookies.pyDict [("sid", "1"), ("lang", "fr")]) =
      [DriverOp.addCookie (Cookie.str "sid"), DriverOp.addCookie (Cookie.str "lang")] :=
  (claim8_dict_cookies_iterable_branch [("sid", "1"), ("lang", "fr")]).2.1

/-! ### Claim C2: the timeout remap is the only exception handling -/

theorem countP_isNavigate_cookieOps (c : Cookies) :
    (cookieOps c).countP isNavigate = 0 := by
  refine List.countP_eq_zero.2 fun op hop => ?_
  obtain ⟨ck, rfl⟩ := mem_cookieOps c op hop
  simp [isNavigate]

theorem countP_isNavigate_scriptOps (l : Option (List Nat)) :
    (scriptOps l).countP isNavigate = 0 := by
  cases l with
  | none => rfl
  | some ids =>
    by_cases h : ids.length ≠ 0 <;>
      simp [scriptOps, handle_selenium_scripts, h, isNavigate, List.countP_cons]

/-- The embedded `process_request` issues exactly one `driver.get` per
SeleniumRequest, whatever the environment does. -/
theorem navCount_trace (mw : Middleware) (env : Env) (dr : DriverState)
    (req : SeleniumRequest) :
    navCount (process_request mw env dr (Request.selenium req)).trace = 1 := by
  have hget : ∀ hs : Bool,
      List.countP isNavigate (if hs then [DriverOp.takeScreenshot] else []) = 0 := by
    intro hs; cases hs <;> simp [isNavigate, List.countP_cons]
  cases hn : env.navRaises req.url with
  | none =>
    cases hw : req.wait_until with
    | none =>
      simp [process_request, hn, hw, afterWait, navCount, List.countP_append,
        List.countP_cons, isNavigate, countP_isNavigate_cookieOps,
        countP_isNavigate_scriptOps, hget]
    | some c =>
      cases hwr : env.waitRaises c with
      | none =>
        simp [process_request, hn, hw, hwr, afterWait, navCount, List.countP_append,
          List.countP_cons, isNavigate, countP_isNavigate_cookieOps,
          countP_isNavigate_scriptOps, hget]
      | some e =>
        simp [process_request, hn, hw, hwr, navCount, List.countP_append,
          List.countP_cons, isNavigate, countP_isNavigate_cookieOps]
  | some e =>
    cases e <;>
      simp [process_request, hn, navCount, List.countP_append, List.countP_cons,
        isNavigate, countP_isNavigate_cookieOps]

/-- C2: the only timeout handling is the single remap at navigation:
`process_request` comes to the `IgnoreRequest`-wrapping-`TimeoutError` outcome
exactly when `driver.get` raises `TimeoutException`; exactly one `driver.get`
is issued (no retry); and any other exception raised at navigation propagates
unchanged (no other exception is remapped). -/
theorem claim2_timeout_remap (mw : Middleware) (env : Env) (dr : DriverState)
    (req : SeleniumRequest) :
    ((process_request mw env dr (Request.selenium req)).result
        = ProcResult.ignoreRequestTimeout
      ↔ env.navRaises req.url = some PyExc.timeoutException) ∧
    navCount (process_request mw env dr (Request.selenium req)).trace = 1 ∧
    (∀ e, e ≠ PyExc.timeoutException → env.navRaises req.url = some e →
      (process_request mw env dr (Request.selenium req)).result
        = ProcResult.uncaught e) := by
  refine ⟨?_, navCount_trace mw env dr req, ?_⟩
  · cases hn : env.navRaises req.url with
    | none =>
      cases hw : req.wait_until with
      | none => simp [process_request, hn, hw, afterWait]
      | some c =>
        cases hwr : env.waitRaises c with
        | none => simp [process_request, hn, hw, hwr, afterWait]
        | some e => simp [process_request, hn, hw, hwr]
    | some e =>
      cases e with
      | timeoutException => simp [process_request, hn]
      | otherError k => simp [process_request, hn]
  · intro e he hn
    cases e with
    | timeoutException => exact absurd rfl he
    | otherError k => simp [process_request, hn]

/-- C2 witness: a non-timeout exception at navigation propagates uncaught. -/
theorem claim2_timeout_remap_witness :
    (process_request mw0 envOther dFresh (Request.selenium reqFull)).result
      = ProcResult.uncaught (PyExc.otherError 3) :=
  (claim2_timeout_remap mw0 envOther dFresh reqFull).2.2
    (PyExc.otherError 3) (by simp) rfl

/-! ### Claim C4: successful processing yields a response from the browser state -/

/-- C4: for every SeleniumRequest whose navigation and wait do not raise,
`process_request` returns a response object built from the resulting browser
state (the final driver state after every issued operation), never `None`. -/
theorem claim4_response_from_browser_state (mw : Middleware) (env : Env)
    (dr : DriverState) (req : SeleniumRequest)
    (hnav : env.navRaises req.url = Option.none)
    (hwait : ∀ c, req.wait_until = some c → env.waitRaises c = Option.none) :
    ∃ resp, (process_request mw env dr (Request.selenium req)).result
        = ProcResult.response resp ∧
      resp.browserState = (process_request mw env dr (Request.selenium req)).driver ∧
      (process_request mw env dr (Request.selenium req)).result ≠ ProcResult.pyNone := by
  cases hw : req.wait_until with
  | none =>
    simp only [process_request, hnav, hw, afterWait]
    exact ⟨_, rfl, rfl, by simp⟩
  | some c =>
    simp only [process_request, hnav, hw, hwait c hw, afterWait]
    exact ⟨_, rfl, rfl, by simp⟩

/-- C4 witness: the response theorem applied to `reqFull` in an environment
where nothing raises. -/
theorem claim4_response_from_browser_state_witness :
    ∃ resp, (process_request mw0 env0 dFresh (Request.selenium reqFull)).result
        = ProcResult.response resp ∧
      resp.browserState = (process_request mw0 env0 dFresh (Request.selenium reqFull)).driver ∧
      (process_request mw0 env0 dFresh (Request.selenium reqFull)).result
        ≠ ProcResult.pyNone :=
  claim4_response_from_browser_state mw0 env0 dFresh reqFull rfl (fun _ _ => rfl)

/-! ### Claim C5: waiting is delegated to WebDriverWait -/

theorem countP_isWaitOp_cookieOps (c : Cookies) :
    (cookieOps c).countP isWaitOp = 0 := by
  refine List.countP_eq_zero.2 fun op hop => ?_
  obtain ⟨ck, rfl⟩ := mem_cookieOps c op hop
  simp [isWaitOp]

theorem countP_isWaitOp_scriptOps (l : Option (List Nat)) :
    (scriptOps l).countP isWaitOp = 0 := by
  cases l with
  | none => rfl
  | some ids =>
    by_cases h : ids.length ≠ 0 <;>
      simp [scriptOps, handle_selenium_scripts, h, isWaitOp, List.countP_cons]

/-- C5: the middleware evaluates no wait predicate itself: when `wait_until`
is set, the trace holds exactly one `WebDriverWait(driver, wait_time)
.until(wait_until)` call, configured with the request's `wait_time` and
predicate; when `wait_until` is unset, no wait call is issued at all. -/
theorem claim5_wait_delegation (mw : Middleware) (env : Env) (dr : DriverState)
    (req : SeleniumRequest) (hnav : env.navRaises req.url = Option.none) :
    (∀ c, req.wait_until = some c →
      waitCount (process_request mw env dr (Request.selenium req)).trace = 1 ∧
      DriverOp.wait req.wait_time c
        ∈ (process_request mw env dr (Request.selenium req)).trace) ∧
    (req.wait_until = Option.none →
      waitCount (process_request mw env dr (Request.selenium req)).trace = 0) := by
  have hshot : ∀ hs : Bool,
      List.countP isWaitOp (if hs then [DriverOp.takeScreenshot] else []) = 0 := by
    intro hs; cases hs <;> simp [isWaitOp, List.countP_cons]
  constructor
  · intro c hw
    cases hwr : env.waitRaises c with
    | some e =>
      constructor
      · simp [process_request, hnav, hw, hwr, waitCount, List.countP_append,
          List.countP_cons, isWaitOp, countP_isWaitOp_cookieOps]
      · simp [process_request, hnav, hw, hwr]
    | none =>
      constructor
      · simp [process_request, hnav, hw, hwr, afterWait, waitCount,
          List.countP_append, List.countP_cons, isWaitOp,
          countP_isWaitOp_cookieOps, countP_isWaitOp_scriptOps, hshot]
      · simp [process_request, hnav, hw, hwr, afterWait]
  · intro hw
    simp [process_request, hnav, hw, afterWait, waitCount, List.countP_append,
      List.countP_cons, isWaitOp, countP_isWaitOp_cookieOps,
      countP_isWaitOp_scriptOps, hshot]

/-- C5 witness: the delegation theorem applied to `reqFull`, whose
`wait_until` is condition `7` with `wait_time` `5`. -/
theorem claim5_wait_delegation_witness :
    waitCount (process_request mw0 env0 dFresh (Request.selenium reqFull)).trace = 1 ∧
    DriverOp.wait 5 7 ∈ (process_request mw0 env0 dFresh (Request.selenium reqFull)).trace :=
  (claim5_wait_delegation mw0 env0 dFresh reqFull rfl).1 7 rfl

/-! ### Claim C6: the screenshot step writes only `request.meta` -/

/-- C6: for every SeleniumRequest whose navigation and wait do not raise, a
truthy `screenshot` flag makes `process_request` leave the request identical
except that `meta['screenshot']` now holds the driver's PNG bytes; a falsy
flag leaves the request — its meta included — unchanged. -/
theorem claim6_screenshot_meta_only (mw : Middleware) (env : Env)
    (dr : DriverState) (req : SeleniumRequest)
    (hnav : env.navRaises req.url = Option.none)
    (hwait : ∀ c, req.wait_until = some c → env.waitRaises c = Option.none) :
    (req.screenshot = true →
      (process_request mw env dr (Request.selenium req)).request =
        Request.selenium { req with
          meta := setMeta req.meta "screenshot" (MetaVal.bytes env.screenshotPng) }) ∧
    (req.screenshot = false →
      (process_request mw env dr (Request.selenium req)).request
        = Request.selenium req) := by
  constructor
  · intro hs
    cases hw : req.wait_until with
    | none => simp [process_request, hnav, hw, afterWait, hs]
    | some c => simp [process_request, hnav, hw, hwait c hw, afterWait, hs]
  · intro hs
    cases hw : req.wait_until with
    | none => simp [process_request, hnav, hw, afterWait, hs]
    | some c => simp [process_request, hnav, hw, hwait c hw, afterWait, hs]

/-- C6 witness: processing `reqFull` (screenshot flag set, empty meta) ends
with its meta holding exactly the screenshot PNG bytes. -/
theorem claim6_screenshot_meta_only_witness :
    (process_request mw0 env0 dFresh (Request.selenium reqFull)).request =
      Request.selenium { reqFull with
        meta := [("screenshot", MetaVal.bytes [137, 80, 78, 71])] } :=
  (claim6_screenshot_meta_only mw0 env0 dFresh reqFull rfl (fun _ _ => rfl)).1 rfl

/-! ### Claim C3: driver lifecycle -/

theorem countP_isCreateEvent_map_driverOp (ops : List DriverOp) :
    (ops.map LifeEvent.driverOp).countP isCreateEvent = 0 := by
  induction ops with
  | nil => rfl
  | cons o os ih => simp [List.countP_cons, isCreateEvent, ih]

theorem countP_isQuitEvent_map_driverOp (ops : List DriverOp) :
    (ops.map LifeEvent.driverOp).countP isQuitEvent = 0 := by
  induction ops with
  | nil => rfl
  | cons o os ih => simp [List.countP_cons, isQuitEvent, ih]

/-- C3 counterexample: `__init__` alone — before any `process_request` call
exists to need a driver — already performs the driver construction, so the
driver is created eagerly at middleware construction, not lazily. -/
theorem claim3_counterexample :
    (initEvents a0).length = 1 ∧ createCount (initEvents a0) = 1 := by
  exact ⟨rfl, rfl⟩

/-- C3 (amended): the middleware eagerly owns exactly one browser-driver
process for the lifetime of a crawl: when a driver executable path or command
executor is configured (and the driver arguments are a list), the whole run —
`__init__`, every `process_request`, `spider_closed` — contains exactly one
driver construction and exactly one `driver.quit()`, the construction is the
very first lifecycle event (inside `__init__`, before any request), and the
quit is the very last (at spider close), so every driver operation in between
acts on that single driver. -/
theorem claim3_driver_lifecycle (a : InitArgs) (env : Env) (dInit : DriverState)
    (reqs : List Request) (args : List String)
    (hargs : a.driver_arguments = some args)
    (hconf : a.driver_executable_path.isSome ∨ a.command_executor.isSome) :
    ∃ run, crawlRun a env dInit reqs = some run ∧
      createCount run = 1 ∧ quitCount run = 1 ∧
      (∃ k, run.head? = some (LifeEvent.createDriver k)) ∧
      run.getLast? = some LifeEvent.quitDriver := by
  obtain ⟨mw, k, hinit⟩ :
      ∃ mw k, seleniumMiddlewareInit a = InitResult.ok mw [LifeEvent.createDriver k] := by
    cases hp : a.driver_executable_path with
    | some p =>
      refine ⟨Middleware.mk a.timeout
          (some (DriverKind.localDriver p (buildOptions a.browser_executable_path args))),
        DriverKind.localDriver p (buildOptions a.browser_executable_path args), ?_⟩
      simp [seleniumMiddlewareInit, hargs, hp]
    | none =>
      cases hc : a.command_executor with
      | some c =>
        refine ⟨Middleware.mk a.timeout
            (some (DriverKind.remoteDriver c (buildOptions a.browser_executable_path args))),
          DriverKind.remoteDriver c (buildOptions a.browser_executable_path args), ?_⟩
        simp [seleniumMiddlewareInit, hargs, hp, hc]
      | none => simp [hp, hc] at hconf
  refine ⟨[LifeEvent.createDriver k]
      ++ ((processAll mw env dInit reqs).1.map LifeEvent.driverOp)
      ++ spider_closed mw, ?_, ?_, ?_, ⟨k, rfl⟩, ?_⟩
  · simp [crawlRun, hinit]
  · simp [createCount, spider_closed, List.countP_append, List.countP_cons,
      isCreateEvent, countP_isCreateEvent_map_driverOp]
  · simp [quitCount, spider_closed, List.countP_append, List.countP_cons,
      isQuitEvent, countP_isQuitEvent_map_driverOp]
  · show (([LifeEvent.createDriver k]
      ++ ((processAll mw env dInit reqs).1.map LifeEvent.driverOp))
      ++ [LifeEvent.quitDriver]).getLast? = some LifeEvent.quitDriver
    exact List.getLast?_concat _

/-- C3 witness: the lifecycle theorem applied to the local-firefox arguments
`a0` and a one-request crawl. -/
theorem claim3_driver_lifecycle_witness :
    ∃ run, crawlRun a0 env0 dFresh [Request.selenium reqFull] = some run ∧
      createCount run = 1 ∧ quitCount run = 1 ∧
      (∃ k, run.head? = some (LifeEvent.createDriver k)) ∧
      run.getLast? = some LifeEvent.quitDriver :=
  claim3_driver_lifecycle a0 env0 dFresh [Request.selenium reqFull] [] rfl (Or.inl rfl)

/-! ### Claim C7: what `from_crawler` comes to -/

/-- Classification of a `from_crawler` call: raised `NotConfigured`, raised
`TypeError`, or returned a middleware with / without the spider_closed signal
connected. -/
inductive FCKind
  | notConfiguredK
  | typeErrorK
  | okConnectedK
  | okNotConnectedK
deriving DecidableEq, Repr

def fcKind : FromCrawlerResult → FCKind
  | .notConfigured _ => .notConfiguredK
  | .typeError => .typeErrorK
  | .ok _ _ c => if c then .okConnectedK else .okNotConnectedK

/-- Written from the amended claim C7's words: `NotConfigured` iff
`SELENIUM_DRIVER_NAME` is unset or both `SELENIUM_DRIVER_EXECUTABLE_PATH` and
`SELENIUM_COMMAND_EXECUTOR` are unset; otherwise, if
`SELENIUM_DRIVER_ARGUMENTS` is unset a `TypeError` escapes from `__init__`;
otherwise a middleware is returned with its `spider_closed` handler connected
to the `spider_closed` signal. -/
def expectedFcKind (s : CrawlerSettings) : FCKind :=
  if s.SELENIUM_DRIVER_NAME.isNone then FCKind.notConfiguredK
  else if s.SELENIUM_DRIVER_EXECUTABLE_PATH.isNone
      && s.SELENIUM_COMMAND_EXECUTOR.isNone then FCKind.notConfiguredK
  else if s.SELENIUM_DRIVER_ARGUMENTS.isNone then FCKind.typeErrorK
  else FCKind.okConnectedK

/-- C7 counterexample: with a driver name and an executable path set but
`SELENIUM_DRIVER_ARGUMENTS` unset, neither `NotConfigured` condition holds,
yet `from_crawler` does not return a middleware instance: `__init__` raises
`TypeError` at `for argument in driver_arguments` because the forwarded
setting is `None`. -/
theorem claim7_counterexample :
    from_crawler
      { SELENIUM_DRIVER_NAME := some "firefox"
        SELENIUM_DRIVER_EXECUTABLE_PATH := some "/usr/local/bin/geckodriver"
        SELENIUM_BROWSER_EXECUTABLE_PATH := Option.none
        SELENIUM_COMMAND_EXECUTOR := Option.none
        SELENIUM_DRIVER_ARGUMENTS := Option.none
        DOWNLOAD_TIMEOUT := some 180 } = FromCrawlerResult.typeError := by
  rfl

/-- C7 (amended): `from_crawler` raises `NotConfigured` iff
`SELENIUM_DRIVER_NAME` is unset, or both `SELENIUM_DRIVER_EXECUTABLE_PATH`
and `SELENIUM_COMMAND_EXECUTOR` are unset; in every other case where
`SELENIUM_DRIVER_ARGUMENTS` is set it returns a middleware instance and
connects its `spider_closed` handler to the `spider_closed` signal, while an
unset `SELENIUM_DRIVER_ARGUMENTS` makes it raise `TypeError` instead. -/
theorem claim7_from_crawler_outcome (s : CrawlerSettings) :
    fcKind (from_crawler s) = expectedFcKind s := by
  obtain ⟨n, p, b, c, ar, t⟩ := s
  cases n <;> cases p <;> cases c <;> cases ar <;>
    simp [from_crawler, expectedFcKind, fcKind, seleniumMiddlewareInit]

end ScrapySelenium
